import Mathlib

/-!
Verification of the `psgrn_pscmp` fomosto backend of pyrocko
(`src/fomosto/psgrn_pscmp.py`).

The Python functions are shallowly embedded: real-valued quantities become
rationals, dictionaries become association lists in insertion order, fallible
operations return `Option`/`Except`, and the effectful runner / builder code
is modelled by explicit state passing together with an event trace recording
the order of the side effects that matter (writing the input file, locking and
unlocking the store, raising).
-/

namespace PsgrnPscmp

/-! ### Isotropic scaling factors (`get_iso_scaling_factors`) -/

/-- Python `get_nullification_factor(mu, lame_lambda)`:
`-lame_lambda / (2. * mu + 2. * lame_lambda)`. -/
def get_nullification_factor (mu lame_lambda : ℚ) : ℚ :=
  -lame_lambda / (2 * mu + 2 * lame_lambda)

/-- Python `get_trace_normalization_factor(mu, lame_lambda, nullification)`:
`1. / ((2. * mu) + lame_lambda + (2. * lame_lambda * nullification))`. -/
def get_trace_normalization_factor (mu lame_lambda nullification : ℚ) : ℚ :=
  1 / ((2 * mu) + lame_lambda + (2 * lame_lambda * nullification))

/-- Python `get_iso_scaling_factors(mu, lame_lambda)`: returns the pair
`(nullf, scale)`. -/
def get_iso_scaling_factors (mu lame_lambda : ℚ) : ℚ × ℚ :=
  (get_nullification_factor mu lame_lambda,
   get_trace_normalization_factor mu lame_lambda
     (get_nullification_factor mu lame_lambda))

/-! ### Elementary source decomposition (`MTIso`, `MTDev`, `to_rfs`) -/

/-- The per-component parameter dictionaries hold strike, dip, rake, slip and
opening. -/
structure MTParams where
  strike : ℚ
  dip : ℚ
  rake : ℚ
  slip : ℚ
  opening : ℚ
deriving DecidableEq

/-- Python dict `MTIso`, in insertion order. -/
def MTIso : List (String × MTParams) :=
  [("nn", ⟨90, 90, 0, 0, 1⟩),
   ("ee", ⟨0, 90, 0, 0, 1⟩),
   ("dd", ⟨0, 0, -90, 0, 1⟩)]

/-- Python dict `MTDev`, in insertion order. -/
def MTDev : List (String × MTParams) :=
  [("ne", ⟨90, 90, 180, 1, 0⟩),
   ("nd", ⟨180, 0, 0, 1, 0⟩),
   ("ed", ⟨270, 0, 0, 1, 0⟩)]

/-- `PsCmpRectangularSource`: the guts fields relevant to the decomposition
and to `string_for_config`.  `pos_s` and `pos_d` are optional with default
`None`. -/
structure PsCmpRectangularSource where
  lat : ℚ
  lon : ℚ
  depth : ℚ
  length : ℚ
  width : ℚ
  strike : ℚ
  dip : ℚ
  rake : ℚ
  torigin : ℚ
  slip : ℚ
  pos_s : Option ℚ
  pos_d : Option ℚ
  opening : ℚ
deriving DecidableEq

/-- Shared fields of `PsCmpTensileSF` (Location fields plus its own guts
fields, without `idx`). -/
structure PsCmpTensileSF where
  lat : ℚ
  lon : ℚ
  depth : ℚ
  length : ℚ
  width : ℚ
  torigin : ℚ
  idx : String

/-- Building a `PsCmpRectangularSource` from the `__dict__` of a source-factor
object updated with a parameter dict: `kwargs = deepcopy(self.__dict__);
kwargs.update(params); kwargs.pop(idx); PsCmpRectangularSource(**kwargs)`.
`pos_s`/`pos_d` keep their default `None`. -/
def mkRectSource (lat lon depth length width torigin : ℚ) (p : MTParams) :
    PsCmpRectangularSource :=
  { lat := lat, lon := lon, depth := depth, length := length, width := width,
    strike := p.strike, dip := p.dip, rake := p.rake, torigin := torigin,
    slip := p.slip, pos_s := none, pos_d := none, opening := p.opening }

/-- Python `PsCmpTensileSF.to_rfs(self, nullification)`: loop over
`MTIso.items()`; components other than `self.idx` get their `opening`
multiplied by `nullification`. -/
def PsCmpTensileSF.to_rfs (sf : PsCmpTensileSF) (nullification : ℚ) :
    List PsCmpRectangularSource :=
  MTIso.map (fun cm =>
    let params :=
      if cm.1 ≠ sf.idx then { cm.2 with opening := cm.2.opening * nullification }
      else cm.2
    mkRectSource sf.lat sf.lon sf.depth sf.length sf.width sf.torigin params)

/-- Shared fields of `PsCmpShearSF` (same layout as the tensile one). -/
structure PsCmpShearSF where
  lat : ℚ
  lon : ℚ
  depth : ℚ
  length : ℚ
  width : ℚ
  torigin : ℚ
  idx : String

/-- Python `PsCmpShearSF.to_rfs(self)`: `kwargs.update(MTDev[self.idx])`,
returning a one-element list; an `idx` outside `MTDev` raises `KeyError`,
modelled by `none`. -/
def PsCmpShearSF.to_rfs (sf : PsCmpShearSF) :
    Option (List PsCmpRectangularSource) :=
  (MTDev.lookup sf.idx).map (fun p =>
    [mkRectSource sf.lat sf.lon sf.depth sf.length sf.width sf.torigin p])

/-- Shared fields of `PsCmpMomentTensor`. -/
structure PsCmpMomentTensor where
  lat : ℚ
  lon : ℚ
  depth : ℚ
  length : ℚ
  width : ℚ
  torigin : ℚ
  idx : String

/-- Python `PsCmpMomentTensor.to_rfs(self, nullification=-0.25)`: dispatch on
`self.idx in MTIso` / `self.idx in MTDev`, else
`raise Exception('MT component not supported!')`. -/
def PsCmpMomentTensor.to_rfs (mt : PsCmpMomentTensor) (nullification : ℚ) :
    Except String (List PsCmpRectangularSource) :=
  if (MTIso.lookup mt.idx).isSome then
    .ok (PsCmpTensileSF.to_rfs
      ⟨mt.lat, mt.lon, mt.depth, mt.length, mt.width, mt.torigin, mt.idx⟩
      nullification)
  else
    match PsCmpShearSF.to_rfs
        ⟨mt.lat, mt.lon, mt.depth, mt.length, mt.width, mt.torigin, mt.idx⟩ with
    | some srcs => .ok srcs
    | none => .error "MT component not supported!"

/-! ### `PsCmpRectangularSource.string_for_config`: effect on `pos_s`/`pos_d` -/

/-- Python truthiness of an optional float: `None` and `0.0` are falsy. -/
def pyTruthy : Option ℚ → Bool
  | none => false
  | some x => x ≠ 0

/-- State effect of `PsCmpRectangularSource.string_for_config` on the source:
Python `if self.pos_s or self.pos_d is None: self.pos_s = 0.; self.pos_d = 0.`
(the remaining work happens on a deepcopy of `__dict__` and mutates nothing
else). -/
def PsCmpRectangularSource.string_for_config_update
    (s : PsCmpRectangularSource) : PsCmpRectangularSource :=
  if pyTruthy s.pos_s ∨ s.pos_d = none then
    { s with pos_s := some 0, pos_d := some 0 }
  else s

/-! ### Runners (`PsGrnRunner.run`, `PsCmpRunner.run`)

The effectful runner bodies are modelled as functions from the outcome of the
external process (launch failure / interrupted flag / exit code, captured
stdout and stderr) to an event trace plus an `Except` result.  The event
trace records the order of the side effects the claims speak about: writing
the input file and attempting to launch the executable. -/

/-- Captured result of `proc.communicate`: exit code, stdout, stderr. -/
structure ProcOutput where
  returncode : Int
  output : String
  errout : String
deriving DecidableEq

/-- Environment behaviour of the `Popen` call: either an `OSError` at launch,
or the process ran (with the interrupted flag recorded by the `SIGINT`
handler). -/
inductive LaunchResult
  | failed
  | ran (interrupted : Bool) (po : ProcOutput)
deriving DecidableEq

/-- Side effects of a runner invocation, in order. -/
inductive RunEv
  | writeInput
  | launchAttempt
deriving DecidableEq

/-- Errors a runner can raise: `PsGrnError`/`PsCmpError` for a failed launch;
`PsGrnError`/`PsCmpError` bundling input, output and error text plus the
collected messages for a solver failure; `KeyboardInterrupt`. -/
inductive RunError
  | startFailure (program : String)
  | solverFailure (input output errout : String) (msgs : List String)
  | keyboardInterrupt
deriving DecidableEq

/-- Whether `pat` is an initial segment of `l`. -/
def leadEq : List Char → List Char → Bool
  | [], _ => true
  | _ :: _, [] => false
  | a :: as, b :: bs => a == b && leadEq as bs

/-- Whether `pat` occurs as a contiguous subsequence of the text. -/
def containsSeq (pat : List Char) : List Char → Bool
  | [] => leadEq pat []
  | c :: cs => leadEq pat (c :: cs) || containsSeq pat cs

/-- Python `output_str.lower().find(b'error') != -1`: the five characters of
the error keyword occur in the lower-cased output. -/
def hasErrorCI (s : String) : Bool :=
  containsSeq "error".data (s.data.map Char.toLower)

/-- The `errmess` list collected by `PsGrnRunner.run`: non-zero exit state,
then the error keyword in the output.  A non-empty stderr is only logged
(the corresponding `errmess.append` is commented out in the source). -/
def psgrnErrmess (po : ProcOutput) : List String :=
  (if po.returncode ≠ 0
   then ["psgrn had a non-zero exit state: " ++ toString po.returncode]
   else []) ++
  (if hasErrorCI po.output
   then ["the string error appeared in psgrn output"]
   else [])

/-- The `errmsg` list collected by `PsCmpRunner.run`: non-zero exit state,
then non-empty stderr, then the error keyword in the output. -/
def pscmpErrmsg (po : ProcOutput) : List String :=
  (if po.returncode ≠ 0
   then ["pscmp had a non-zero exit state: " ++ toString po.returncode]
   else []) ++
  (if po.errout ≠ "" then ["pscmp emitted something via stderr"] else []) ++
  (if hasErrorCI po.output
   then ["the string error appeared in pscmp output"]
   else [])

/-- Python `PsGrnRunner.run`: write the input file, attempt the launch
(`OSError` becomes a `PsGrnError` configuration error), re-raise an interrupt
as `KeyboardInterrupt`, then raise a `PsGrnError` bundling input, output and
error text when `errmess` is non-empty. -/
def psgrnRun (input : String) (lr : LaunchResult) :
    List RunEv × Except RunError Unit :=
  match lr with
  | .failed =>
      ([.writeInput, .launchAttempt], .error (.startFailure "fomosto_psgrn2008a"))
  | .ran intr po =>
      if intr then ([.writeInput, .launchAttempt], .error .keyboardInterrupt)
      else if psgrnErrmess po = [] then ([.writeInput, .launchAttempt], .ok ())
      else
        ([.writeInput, .launchAttempt],
         .error (.solverFailure input po.output po.errout (psgrnErrmess po)))

/-- Python `PsCmpRunner.run`: same shape as `psgrnRun` but with the `pscmp`
message list (which also flags a non-empty stderr). -/
def pscmpRun (input : String) (lr : LaunchResult) :
    List RunEv × Except RunError Unit :=
  match lr with
  | .failed =>
      ([.writeInput, .launchAttempt], .error (.startFailure "fomosto_pscmp2008a"))
  | .ran intr po =>
      if intr then ([.writeInput, .launchAttempt], .error .keyboardInterrupt)
      else if pscmpErrmsg po = [] then ([.writeInput, .launchAttempt], .ok ())
      else
        ([.writeInput, .launchAttempt],
         .error (.solverFailure input po.output po.errout (pscmpErrmsg po)))

/-! ### Builder step-1 store writes (`PsGrnCmpGFBuilder.work_block`) -/

/-- Store index tuple `(sz, x, ig)` used by the two-key config branch. -/
abbrev StoreArgs := ℚ × ℚ × ℕ

/-- The GF store content, an association list from index tuples to trace
data (one rational stands for the scaled data array). -/
abbrev GFStore := List (StoreArgs × ℚ)

/-- Lookup of an index tuple in the store. -/
def store_lookup (store : GFStore) (args : StoreArgs) : Option ℚ :=
  match store with
  | [] => none
  | (a, d) :: rest => if a = args then some d else store_lookup rest args

/-- Modelled from the spec: `gf.store.Store.put` lives outside the given
sources; per the spec, re-insertion of an already-present key raises
`DuplicateInsert` and is never an overwrite, otherwise the record is
inserted. -/
def store_put (store : GFStore) (args : StoreArgs) (data : ℚ) :
    Except Unit GFStore :=
  if (store_lookup store args).isSome then .error ()
  else .ok ((args, data) :: store)

/-- A raw trace returned by the solver: channel name, distance metadata and
data (one rational stands for the data array). -/
structure RawTrace where
  channel : String
  distance : ℚ
  data : ℚ
deriving DecidableEq

/-- The store-writing loop of `work_block` (step 1): for each raw trace whose
channel is in `gfmap`, scale the data and `put` it under `(sz, x, ig)`;
`DuplicateInsert` is caught locally and counted, and iteration continues. -/
def work_block_puts (gfmap : List (String × (ℕ × ℚ))) (sz : ℚ)
    (traces : List RawTrace) (store : GFStore) (dups : ℕ) : GFStore × ℕ :=
  match traces with
  | [] => (store, dups)
  | tr :: rest =>
      match gfmap.lookup tr.channel with
      | none => work_block_puts gfmap sz rest store dups
      | some (ig, factor) =>
          match store_put store (sz, tr.distance, ig) (factor * tr.data) with
          | .ok store2 => work_block_puts gfmap sz rest store2 dups
          | .error _ => work_block_puts gfmap sz rest store (dups + 1)

/-- The warnings emitted by the `finally` block of `work_block`: a duplicate
count warning exactly when any insertions were skipped. -/
def work_block_finish (dups : ℕ) : List String :=
  if 0 < dups then [toString dups ++ " insertions skipped (duplicates)"]
  else []

/-- Side effects of the store-writing phase of `work_block`, in order. -/
inductive BlockEv
  | lockEv
  | warnEv
  | unlockEv
  | restoreSignalEv
  | raiseEv
deriving DecidableEq

/-- Behaviour of one `store.put` in the write loop: success, a caught
`DuplicateInsert`, or some other raised error that propagates. -/
inductive PutResult
  | okPut
  | duplicate
  | fatal (e : String)
deriving DecidableEq

/-- How the store-writing phase returns to the caller. -/
inductive BlockOutcome
  | completed
  | failed (e : String)
  | interrupted
deriving DecidableEq

/-- The `try` body of the store-writing phase: count duplicates; a fatal
error stops the loop and is re-raised after the `finally` block. -/
def store_write_loop (dups : ℕ) : List PutResult → ℕ × Option String
  | [] => (dups, none)
  | .okPut :: rest => store_write_loop dups rest
  | .duplicate :: rest => store_write_loop (dups + 1) rest
  | .fatal e :: _ => (dups, some e)

/-- The store-writing phase of `work_block`: install the `SIGINT` handler,
`store.lock()`, run the write loop, then in `finally` warn about duplicates,
`store.unlock()` and restore the handler; afterwards a pending fatal error
propagates, else a recorded interrupt raises `KeyboardInterrupt`. -/
def store_write_phase (intr : Bool) (puts : List PutResult) :
    List BlockEv × BlockOutcome :=
  let r := store_write_loop 0 puts
  let evs := [BlockEv.lockEv] ++
    (if 0 < r.1 then [BlockEv.warnEv] else []) ++
    [BlockEv.unlockEv, BlockEv.restoreSignalEv]
  match r.2 with
  | some e => (evs ++ [BlockEv.raiseEv], .failed e)
  | none =>
      if intr then (evs ++ [BlockEv.raiseEv], .interrupted)
      else (evs, .completed)

/-- `true` when, scanning the trace left to right, no raise happens before
the store lock has been released. -/
def released_before_raise : List BlockEv → Bool
  | [] => true
  | BlockEv.raiseEv :: _ => false
  | BlockEv.unlockEv :: _ => true
  | _ :: rest => released_before_raise rest

end PsgrnPscmp

namespace PsgrnPscmp

/-- C1: for mu > 0 and lame_lambda > 0, `get_iso_scaling_factors` returns
`(nullification, trace_normalization)` with
`nullification = -lame_lambda / (2*mu + 2*lame_lambda)`, which lies strictly
between `-1/2` and `0`, and
`trace_normalization * (2*mu + lame_lambda + 2*lame_lambda*nullification) = 1`. -/
theorem iso_scaling_factors_spec (mu lame_lambda : ℚ)
    (hmu : 0 < mu) (hl : 0 < lame_lambda) :
    (get_iso_scaling_factors mu lame_lambda).1 =
      -lame_lambda / (2 * mu + 2 * lame_lambda) ∧
    -(1/2) < (get_iso_scaling_factors mu lame_lambda).1 ∧
    (get_iso_scaling_factors mu lame_lambda).1 < 0 ∧
    (get_iso_scaling_factors mu lame_lambda).2 *
      (2 * mu + lame_lambda +
        2 * lame_lambda * (get_iso_scaling_factors mu lame_lambda).1) = 1 := by
  have hden : (0:ℚ) < 2 * mu + 2 * lame_lambda := by linarith
  have hden0 : (2 * mu + 2 * lame_lambda : ℚ) ≠ 0 := ne_of_gt hden
  constructor
  · rfl
  refine ⟨?_, ?_, ?_⟩
  · show -(1/2) < -lame_lambda / (2 * mu + 2 * lame_lambda)
    rw [lt_div_iff₀ hden]
    nlinarith
  · show -lame_lambda / (2 * mu + 2 * lame_lambda) < 0
    exact div_neg_of_neg_of_pos (by linarith) hden
  · show get_trace_normalization_factor mu lame_lambda
        (get_nullification_factor mu lame_lambda) *
        (2 * mu + lame_lambda +
          2 * lame_lambda * get_nullification_factor mu lame_lambda) = 1
    have hD : 2 * mu + lame_lambda +
        2 * lame_lambda * get_nullification_factor mu lame_lambda =
        (4 * mu * mu + 6 * mu * lame_lambda) / (2 * mu + 2 * lame_lambda) := by
      unfold get_nullification_factor
      field_simp
      ring
    have hDpos : (0:ℚ) < 2 * mu + lame_lambda +
        2 * lame_lambda * get_nullification_factor mu lame_lambda := by
      rw [hD]
      exact div_pos (by nlinarith) hden
    unfold get_trace_normalization_factor
    exact one_div_mul_cancel (ne_of_gt hDpos)

/-- Witness for C1 at mu = 1, lame_lambda = 1. -/
theorem iso_scaling_factors_spec_witness :
    (0:ℚ) < 1 ∧
    ((get_iso_scaling_factors 1 1).1 = -1 / (2 * 1 + 2 * 1) ∧
     -(1/2) < (get_iso_scaling_factors 1 1).1 ∧
     (get_iso_scaling_factors 1 1).1 < 0 ∧
     (get_iso_scaling_factors 1 1).2 *
       (2 * 1 + 1 + 2 * 1 * (get_iso_scaling_factors 1 1).1) = 1) :=
  ⟨by norm_num, iso_scaling_factors_spec 1 1 (by norm_num) (by norm_num)⟩

theorem psgrnErrmess_nil_iff (po : ProcOutput) :
    psgrnErrmess po = [] ↔
      po.returncode = 0 ∧ hasErrorCI po.output = false := by
  unfold psgrnErrmess
  by_cases h1 : po.returncode = 0 <;> by_cases h2 : hasErrorCI po.output <;>
    simp [h1, h2]

theorem pscmpErrmsg_nil_iff (po : ProcOutput) :
    pscmpErrmsg po = [] ↔
      po.returncode = 0 ∧ po.errout = "" ∧ hasErrorCI po.output = false := by
  unfold pscmpErrmsg
  by_cases h1 : po.returncode = 0 <;> by_cases h2 : po.errout = "" <;>
    by_cases h3 : hasErrorCI po.output <;> simp [h1, h2, h3]

/-- C4 counterexample: the PsCmp runner with exit code 0, stdout free of the
error keyword, and a non-empty error stream raises a solver-execution error,
refuting the claimed equivalence for that runner. -/
theorem pscmp_stderr_breaks_iff :
    (pscmpRun "inp" (.ran false ⟨0, "all fine", "warning text"⟩)).2 =
      .error (.solverFailure "inp" "all fine" "warning text"
        ["pscmp emitted something via stderr"]) ∧
    hasErrorCI "all fine" = false := by
  constructor
  · rfl
  · decide

/-- C4 (amended): on a launched, uninterrupted invocation, `PsGrnRunner.run`
raises a solver-execution error bundling the exact input, output and error
text iff the exit code is non-zero or the error keyword occurs
case-insensitively in stdout; `PsCmpRunner.run` does the same except that a
non-empty error stream is an additional, independent failure condition. -/
theorem run_raises_iff (input : String) (po : ProcOutput) :
    ((psgrnRun input (.ran false po)).2 =
        .error (.solverFailure input po.output po.errout (psgrnErrmess po)) ↔
      (po.returncode ≠ 0 ∨ hasErrorCI po.output = true)) ∧
    ((psgrnRun input (.ran false po)).2 = .ok () ↔
      (po.returncode = 0 ∧ hasErrorCI po.output = false)) ∧
    ((pscmpRun input (.ran false po)).2 =
        .error (.solverFailure input po.output po.errout (pscmpErrmsg po)) ↔
      (po.returncode ≠ 0 ∨ po.errout ≠ "" ∨ hasErrorCI po.output = true)) ∧
    ((pscmpRun input (.ran false po)).2 = .ok () ↔
      (po.returncode = 0 ∧ po.errout = "" ∧ hasErrorCI po.output = false)) := by
  have hn := psgrnErrmess_nil_iff po
  have hm := pscmpErrmsg_nil_iff po
  by_cases h1 : po.returncode = 0 <;> cases hb : hasErrorCI po.output <;>
    by_cases h2 : po.errout = "" <;>
    simp only [h1, hb, h2, eq_self_iff_true, true_and, and_true, true_iff,
      iff_true, not_true, not_false_iff, and_false, false_and,
      iff_false, Bool.true_eq_false, Bool.false_eq_true] at hn hm <;>
    simp [psgrnRun, pscmpRun, hn, hm, h1, hb, h2]

/-- C5 counterexample: the PsCmp runner does not return successfully on exit
code 0 with clean stdout when the error stream is non-empty. -/
theorem pscmp_stderr_alone_fails :
    (pscmpRun "x" (.ran false ⟨0, "done", "w"⟩)).2 ≠ .ok () ∧
    hasErrorCI "done" = false := by
  refine ⟨fun h => Except.noConfusion h, by decide⟩

/-- C5 (amended): on exit code 0 with stdout free of the error keyword and a
non-empty error stream, `PsGrnRunner.run` returns successfully (stderr is
only logged), but `PsCmpRunner.run` raises a solver-execution error. -/
theorem stderr_only_logged (input outp errtext : String)
    (h1 : hasErrorCI outp = false) (h2 : errtext ≠ "") :
    (psgrnRun input (.ran false ⟨0, outp, errtext⟩)).2 = .ok () ∧
    (pscmpRun input (.ran false ⟨0, outp, errtext⟩)).2 =
      .error (.solverFailure input outp errtext
        ["pscmp emitted something via stderr"]) := by
  constructor
  · simp [psgrnRun, psgrnErrmess, h1]
  · simp [pscmpRun, pscmpErrmsg, h1, h2]

/-- Witness for C5 (amended) at input `"x"`, stdout `"done"`, stderr `"w"`. -/
theorem stderr_only_logged_witness :
    (hasErrorCI "done" = false ∧ ("w" : String) ≠ "") ∧
    ((psgrnRun "x" (.ran false ⟨0, "done", "w"⟩)).2 = .ok () ∧
     (pscmpRun "x" (.ran false ⟨0, "done", "w"⟩)).2 =
       .error (.solverFailure "x" "done" "w"
         ["pscmp emitted something via stderr"])) :=
  ⟨⟨by decide, by decide⟩,
   stderr_only_logged "x" "done" "w" (by decide) (by decide)⟩

/-- C6 counterexample: with an unlaunchable executable the PsGrn runner does
fail with the configuration error, but only after the input file has been
written: the trace of its run is the input write followed by the launch
attempt. -/
theorem launch_failure_after_input_write :
    (psgrnRun "inp" .failed).2 =
      .error (.startFailure "fomosto_psgrn2008a") ∧
    (psgrnRun "inp" .failed).1 = [.writeInput, .launchAttempt] :=
  ⟨rfl, rfl⟩

/-- C6 (amended): for any input text, invoking either runner with an
unlaunchable executable fails with the configuration error
(`PsGrnError` / `PsCmpError`), but the input file has already been written to
the working directory: the write precedes the launch attempt. -/
theorem run_launch_failure_spec (input : String) :
    psgrnRun input .failed =
      ([.writeInput, .launchAttempt],
       .error (.startFailure "fomosto_psgrn2008a")) ∧
    pscmpRun input .failed =
      ([.writeInput, .launchAttempt],
       .error (.startFailure "fomosto_pscmp2008a")) :=
  ⟨rfl, rfl⟩

/-- C2: for an isotropic component index in `{nn, ee, dd}` and any
nullification `f`, `PsCmpTensileSF.to_rfs f` returns exactly three elementary
rectangular sources, one per isotropic axis (in `MTIso` order); the source
whose axis matches the requested index has `opening = 1` and the other two
have `opening = f`. -/
theorem tensile_to_rfs_spec (sf : PsCmpTensileSF) (f : ℚ)
    (h : sf.idx = "nn" ∨ sf.idx = "ee" ∨ sf.idx = "dd") :
    (sf.to_rfs f).length = 3 ∧
    (sf.to_rfs f).map PsCmpRectangularSource.opening =
      MTIso.map (fun cm => if cm.1 = sf.idx then 1 else f) := by
  rcases h with h | h | h <;>
    simp [PsCmpTensileSF.to_rfs, MTIso, mkRectSource, h]

/-- Witness for C2 at `idx = "nn"`, `f = 2`. -/
theorem tensile_to_rfs_spec_witness :
    ((("nn" : String) = "nn" ∨ ("nn" : String) = "ee" ∨
      ("nn" : String) = "dd") ∧
     ((PsCmpTensileSF.mk 0 0 0 1000 1000 0 "nn").to_rfs 2).length = 3 ∧
     ((PsCmpTensileSF.mk 0 0 0 1000 1000 0 "nn").to_rfs 2).map
         PsCmpRectangularSource.opening =
       MTIso.map (fun cm => if cm.1 = "nn" then 1 else 2)) :=
  ⟨Or.inl rfl,
   tensile_to_rfs_spec (PsCmpTensileSF.mk 0 0 0 1000 1000 0 "nn") 2
     (Or.inl rfl)⟩

/-- C3: for a deviatoric component index in `{ne, nd, ed}`,
`PsCmpShearSF.to_rfs` returns exactly one elementary rectangular source, with
`slip = 1`, `opening = 0`, and strike/dip/rake taken from the `MTDev` lookup
table for that component. -/
theorem shear_to_rfs_spec (sf : PsCmpShearSF)
    (h : sf.idx = "ne" ∨ sf.idx = "nd" ∨ sf.idx = "ed") :
    ∃ r : PsCmpRectangularSource, sf.to_rfs = some [r] ∧
      r.slip = 1 ∧ r.opening = 0 ∧
      MTDev.lookup sf.idx = some ⟨r.strike, r.dip, r.rake, r.slip, r.opening⟩ := by
  unfold PsCmpShearSF.to_rfs
  rcases h with h | h | h <;> rw [h] <;> exact ⟨_, rfl, rfl, rfl, rfl⟩

/-- Witness for C3 at `idx = "ne"`. -/
theorem shear_to_rfs_spec_witness :
    ((("ne" : String) = "ne" ∨ ("ne" : String) = "nd" ∨
      ("ne" : String) = "ed") ∧
     ∃ r : PsCmpRectangularSource,
       (PsCmpShearSF.mk 0 0 0 1000 1000 0 "ne").to_rfs = some [r] ∧
       r.slip = 1 ∧ r.opening = 0 ∧
       MTDev.lookup "ne" = some ⟨r.strike, r.dip, r.rake, r.slip, r.opening⟩) :=
  ⟨Or.inl rfl,
   shear_to_rfs_spec (PsCmpShearSF.mk 0 0 0 1000 1000 0 "ne") (Or.inl rfl)⟩

/-- C9: for a deviatoric component index in `{ne, nd, ed}`, the decomposition
`PsCmpMomentTensor.to_rfs` does not depend on the nullification argument. -/
theorem mt_to_rfs_dev_ignores_nullification (mt : PsCmpMomentTensor)
    (f1 f2 : ℚ)
    (h : mt.idx = "ne" ∨ mt.idx = "nd" ∨ mt.idx = "ed") :
    mt.to_rfs f1 = mt.to_rfs f2 := by
  unfold PsCmpMomentTensor.to_rfs
  rcases h with h | h | h <;> rw [h] <;> rfl

/-- Witness for C9 at `idx = "ne"`, `f1 = 3`, `f2 = -7`. -/
theorem mt_to_rfs_dev_ignores_nullification_witness :
    ((("ne" : String) = "ne" ∨ ("ne" : String) = "nd" ∨
      ("ne" : String) = "ed") ∧
     (PsCmpMomentTensor.mk 0 0 0 1000 1000 0 "ne").to_rfs 3 =
       (PsCmpMomentTensor.mk 0 0 0 1000 1000 0 "ne").to_rfs (-7)) :=
  ⟨Or.inl rfl,
   mt_to_rfs_dev_ignores_nullification
     (PsCmpMomentTensor.mk 0 0 0 1000 1000 0 "ne") 3 (-7) (Or.inl rfl)⟩

/-- C10 (code evaluated at the failing input): with `pos_s = 5` and
`pos_d = 3` both set, `string_for_config` resets both to `0`, because the
Python condition `if self.pos_s or self.pos_d is None` parses as
`truthy(pos_s) or (pos_d is None)` instead of the intended
`pos_s is None or pos_d is None`. -/
theorem string_for_config_update_resets_set_pos :
    ((PsCmpRectangularSource.mk 0 0 0 6000 5000 0 90 0 0 1
        (some 5) (some 3) 0).string_for_config_update).pos_s = some 0 ∧
    ((PsCmpRectangularSource.mk 0 0 0 6000 5000 0 90 0 0 1
        (some 5) (some 3) 0).string_for_config_update).pos_d = some 0 ∧
    (PsCmpRectangularSource.mk 0 0 0 6000 5000 0 90 0 0 1
        (some 5) (some 3) 0).pos_s = some 5 := by
  refine ⟨?_, ?_, rfl⟩ <;>
    simp [PsCmpRectangularSource.string_for_config_update, pyTruthy]

theorem store_put_ok_preserves (store s2 : GFStore) (a b : StoreArgs)
    (d v : ℚ) (hput : store_put store b d = .ok s2)
    (h : store_lookup store a = some v) : store_lookup s2 a = some v := by
  unfold store_put at hput
  by_cases hb : (store_lookup store b).isSome
  · rw [if_pos hb] at hput; cases hput
  · rw [if_neg hb] at hput
    cases hput
    show store_lookup ((b, d) :: store) a = some v
    unfold store_lookup
    by_cases hab : b = a
    · subst hab; rw [h] at hb; simp at hb
    · rw [if_neg hab]; exact h

theorem store_put_ok_mem (store s2 : GFStore) (b : StoreArgs) (d : ℚ)
    (hput : store_put store b d = .ok s2) : store_lookup s2 b = some d := by
  unfold store_put at hput
  by_cases hb : (store_lookup store b).isSome
  · rw [if_pos hb] at hput; cases hput
  · rw [if_neg hb] at hput
    cases hput
    show store_lookup ((b, d) :: store) b = some d
    unfold store_lookup
    rw [if_pos rfl]

theorem store_put_error_isSome (store : GFStore) (b : StoreArgs) (d : ℚ)
    (e : Unit) (hput : store_put store b d = .error e) :
    (store_lookup store b).isSome = true := by
  unfold store_put at hput
  by_cases hb : (store_lookup store b).isSome
  · exact hb
  · rw [if_neg hb] at hput; cases hput

theorem work_block_puts_preserves (gfmap : List (String × (ℕ × ℚ))) (sz : ℚ)
    (traces : List RawTrace) :
    ∀ store dups args v, store_lookup store args = some v →
      store_lookup (work_block_puts gfmap sz traces store dups).1 args =
        some v := by
  induction traces with
  | nil => intro store dups args v h; exact h
  | cons tr rest ih =>
      intro store dups args v h
      unfold work_block_puts
      split
      · exact ih store dups args v h
      · split
        next s2 hput =>
          exact ih s2 dups args v
            (store_put_ok_preserves store s2 args _ _ v hput h)
        next e hput => exact ih store (dups + 1) args v h

theorem work_block_puts_keeps_key (gfmap : List (String × (ℕ × ℚ))) (sz : ℚ)
    (traces : List RawTrace) :
    ∀ store dups, ∀ tr ∈ traces, ∀ ig factor,
      gfmap.lookup tr.channel = some (ig, factor) →
      (store_lookup (work_block_puts gfmap sz traces store dups).1
        (sz, tr.distance, ig)).isSome = true := by
  induction traces with
  | nil => intro store dups tr htr; cases htr
  | cons hd rest ih =>
      intro store dups tr htr ig factor hch
      rcases List.mem_cons.mp htr with heq | hmem
      · subst heq
        unfold work_block_puts
        split
        next hnone => rw [hch] at hnone; cases hnone
        next ig2 f2 hsome =>
          rw [hch] at hsome
          injection hsome with hpair
          cases hpair
          split
          next s2 hput =>
            have hmem2 := store_put_ok_mem store s2 _ _ hput
            have h3 := work_block_puts_preserves gfmap sz rest s2 dups
              (sz, tr.distance, ig) (factor * tr.data) hmem2
            rw [h3]; rfl
          next e hput =>
            have hsome2 := store_put_error_isSome store _ _ e hput
            obtain ⟨v, hv⟩ := Option.isSome_iff_exists.mp hsome2
            have h3 := work_block_puts_preserves gfmap sz rest store (dups + 1)
              (sz, tr.distance, ig) v hv
            rw [h3]; rfl
      · unfold work_block_puts
        split
        · exact ih store dups tr hmem ig factor hch
        · split
          next s2 hput => exact ih s2 dups tr hmem ig factor hch
          next e hput => exact ih store (dups + 1) tr hmem ig factor hch

/-- C7: in the step-1 store-writing loop, a duplicate insert never aborts the
block: a record already stored is left unchanged, every trace whose channel
is mapped ends up with its key present in the store (iteration continued past
duplicates), and the duplicate-count warning is emitted at block completion
exactly when insertions were skipped. -/
theorem work_block_duplicate_handling (gfmap : List (String × (ℕ × ℚ)))
    (sz : ℚ) (traces : List RawTrace) (store : GFStore) (args : StoreArgs)
    (v : ℚ) (tr : RawTrace) (ig : ℕ) (factor : ℚ)
    (h1 : store_lookup store args = some v)
    (h2 : tr ∈ traces)
    (h3 : gfmap.lookup tr.channel = some (ig, factor)) :
    store_lookup (work_block_puts gfmap sz traces store 0).1 args = some v ∧
    (store_lookup (work_block_puts gfmap sz traces store 0).1
      (sz, tr.distance, ig)).isSome = true ∧
    (work_block_finish (work_block_puts gfmap sz traces store 0).2 ≠ [] ↔
      0 < (work_block_puts gfmap sz traces store 0).2) := by
  refine ⟨work_block_puts_preserves gfmap sz traces store 0 args v h1,
    work_block_puts_keeps_key gfmap sz traces store 0 tr h2 ig factor h3, ?_⟩
  unfold work_block_finish
  split <;> simp_all

/-- Witness for C7: a store holding key `(1, 5, 0)`, a channel map sending
`un` to `(0, 2)`, and two identical traces so that the second insert is a
duplicate. -/
theorem work_block_duplicate_handling_witness :
    (store_lookup [(((1 : ℚ), (5 : ℚ), (0 : ℕ)), (4 : ℚ))] (1, 5, 0) =
        some 4 ∧
      (⟨"un", 5, 7⟩ : RawTrace) ∈
        [(⟨"un", 5, 7⟩ : RawTrace), ⟨"un", 5, 7⟩] ∧
      ([("un", ((0 : ℕ), (2 : ℚ)))].lookup "un" = some (0, 2))) ∧
    (store_lookup
        (work_block_puts [("un", (0, 2))] 1 [⟨"un", 5, 7⟩, ⟨"un", 5, 7⟩]
          [((1, 5, 0), 4)] 0).1 (1, 5, 0) = some 4 ∧
      (store_lookup
        (work_block_puts [("un", (0, 2))] 1 [⟨"un", 5, 7⟩, ⟨"un", 5, 7⟩]
          [((1, 5, 0), 4)] 0).1 (1, 5, 0)).isSome = true ∧
      (work_block_finish
          (work_block_puts [("un", (0, 2))] 1 [⟨"un", 5, 7⟩, ⟨"un", 5, 7⟩]
            [((1, 5, 0), 4)] 0).2 ≠ [] ↔
        0 < (work_block_puts [("un", (0, 2))] 1 [⟨"un", 5, 7⟩, ⟨"un", 5, 7⟩]
            [((1, 5, 0), 4)] 0).2)) :=
  ⟨⟨by decide, by decide, by decide⟩,
   work_block_duplicate_handling [("un", (0, 2))] 1
     [⟨"un", 5, 7⟩, ⟨"un", 5, 7⟩] [((1, 5, 0), 4)] (1, 5, 0) 4 ⟨"un", 5, 7⟩ 0 2
     (by decide) (by decide) (by decide)⟩

/-- C8: on every exit of the store-writing phase the lock is released (an
unlock event occurs, locks and unlocks balance, and no raise precedes the
unlock), and the outcome is `failed` on an error raised during the writes,
`interrupted` — a condition distinct from both failure and completion — when
an interrupt was recorded and no error was raised, and `completed`
otherwise. -/
theorem store_write_phase_spec (intr : Bool) (puts : List PutResult) :
    BlockEv.unlockEv ∈ (store_write_phase intr puts).1 ∧
    (store_write_phase intr puts).1.count BlockEv.lockEv =
      (store_write_phase intr puts).1.count BlockEv.unlockEv ∧
    released_before_raise (store_write_phase intr puts).1 = true ∧
    ((store_write_phase intr puts).2 =
      match (store_write_loop 0 puts).2 with
      | some e => BlockOutcome.failed e
      | none =>
          if intr then BlockOutcome.interrupted else BlockOutcome.completed) ∧
    (∀ e, BlockOutcome.interrupted ≠ BlockOutcome.failed e ∧
      BlockOutcome.interrupted ≠ BlockOutcome.completed) := by
  by_cases hd : 0 < (store_write_loop 0 puts).1 <;>
    cases hr : (store_write_loop 0 puts).2 <;> cases intr <;>
    simp [store_write_phase, hd, hr, released_before_raise,
      List.count_cons, List.count_nil]

end PsgrnPscmp
